import Mathlib

/-
Verification of the near/runner-rs client-side RPC layer
(src/workspaces/src/rpc/api.rs and src/workspaces/src/worker/impls.rs)
against its natural-language specification.

Shallow embedding conventions:
  - Rust u64 values are Nat, with an explicit `% 2^64` wherever the source
    performs u64 arithmetic that can wrap.
  - Async network round trips are modelled by explicit channel functions
    passed as parameters; an operation returns the number of channel
    invocations it performed together with its result.
  - Fallible code returns Except.
  - Collaborator code of this repository that is not part of the excerpted
    core (rpc/client.rs, rpc/tool.rs, the runtime context) is modelled from
    the spec; each such definition's doc comment starts with
    "Modelled from the spec:".
-/

namespace Workspaces

/-- 64-bit modulus: `Gas` and access-key nonces in the source are Rust u64. -/
def U64_MOD : Nat := 2 ^ 64

/-- Yocto-NEAR balances (`Balance` in the source) are Rust u128. -/
abbrev Balance := Nat

/-- Gas units, Rust u64 in the source. -/
abbrev Gas := Nat

/-- Validated string account identifier. -/
abbrev AccountId := String

/-- Block hashes, treated as opaque values. -/
abbrev BlockHash := Nat

/-- Public keys, treated as opaque values. -/
abbrev PublicKey := Nat

/-- near_primitives `FinalExecutionStatus`: overall status of a transaction. -/
inductive FinalExecutionStatus where
  | notStarted
  | started
  | failure (err : String)
  | successValue (value : List Nat)
deriving DecidableEq, Repr

/-- near_primitives `ExecutionOutcomeView`, restricted to the field the
normalizer reads. -/
structure ExecutionOutcomeView where
  gas_burnt : Gas
deriving DecidableEq, Repr

/-- near_primitives `ExecutionOutcomeWithIdView`: an outcome wrapped with its
receipt/transaction id. -/
structure ExecutionOutcomeWithIdView where
  outcome : ExecutionOutcomeView
deriving DecidableEq, Repr

/-- near_primitives `FinalExecutionOutcomeView`: raw execution outcome of a
transaction, with the transaction's own outcome and one outcome per spawned
receipt. -/
structure FinalExecutionOutcomeView where
  status : FinalExecutionStatus
  transaction_outcome : ExecutionOutcomeWithIdView
  receipts_outcome : List ExecutionOutcomeWithIdView
deriving DecidableEq, Repr

/-- `CallExecutionResult` (src/workspaces/src/rpc/api.rs lines 28-34). -/
structure CallExecutionResult where
  status : FinalExecutionStatus
  total_gas_burnt : Gas
deriving DecidableEq, Repr

/-- Rust `Iterator::sum::<u64>()` over a list of u64 values: a left fold with
wrapping 64-bit addition. -/
def u64_sum (l : List Nat) : Nat :=
  l.foldl (fun a b => (a + b) % U64_MOD) 0

/-- Embedding of `impl From<FinalExecutionOutcomeView> for CallExecutionResult`
(src/workspaces/src/rpc/api.rs lines 36-48): the outcome normalizer. -/
def callExecutionResult_from (transaction_result : FinalExecutionOutcomeView) :
    CallExecutionResult :=
  { status := transaction_result.status
    total_gas_burnt :=
      (transaction_result.transaction_outcome.outcome.gas_burnt +
        u64_sum (transaction_result.receipts_outcome.map
          (fun t => t.outcome.gas_burnt))) % U64_MOD }

/-- Block reference used by a query: near_primitives `Finality`
(`None` is the optimistic reference, `Final` the last finalized block). -/
inductive Finality where
  | none
  | doomSlug
  | final
deriving DecidableEq, Repr

/-- near_primitives `QueryRequest`, restricted to the variants this layer
builds. -/
inductive QueryRequest where
  | viewAccount (account_id : AccountId)
  | callFunction (account_id : AccountId) (method_name : String) (args : List Nat)
  | viewState (account_id : AccountId) (pfx : List Nat)
  | viewAccessKey (account_id : AccountId) (public_key : PublicKey)
deriving DecidableEq, Repr

/-- near_jsonrpc `RpcQueryRequest`: a query request anchored at a block
reference. -/
structure RpcQueryRequest where
  block_reference : Finality
  request : QueryRequest
deriving DecidableEq, Repr

/-- near_primitives `AccountView`: the on-chain account record returned by a
ViewAccount query. -/
structure AccountView where
  amount : Balance
  locked : Balance
  storage_usage : Nat
deriving DecidableEq, Repr

/-- near_primitives `CallResult`: the byte payload a view function returned. -/
structure CallResult where
  result : List Nat
deriving DecidableEq, Repr

/-- near_primitives `ViewStateResult`: the raw key/value items of a ViewState
query. -/
structure ViewStateResult where
  values : List (List Nat × List Nat)
deriving DecidableEq, Repr

/-- near_primitives `AccessKeyView`: the current on-chain nonce of an access
key. -/
structure AccessKeyView where
  nonce : Nat
deriving DecidableEq, Repr

/-- near_jsonrpc `QueryResponseKind`: the tagged payload of a query response. -/
inductive QueryResponseKind where
  | viewAccount (a : AccountView)
  | viewCode (code : List Nat)
  | viewState (s : ViewStateResult)
  | callResult (r : CallResult)
  | accessKey (k : AccessKeyView)
deriving DecidableEq, Repr

/-- near_jsonrpc `RpcQueryResponse`: payload plus the block it was resolved
at. -/
structure RpcQueryResponse where
  kind : QueryResponseKind
  block_height : Nat
  block_hash : BlockHash
deriving DecidableEq, Repr

/-- `NearBalance` (src/workspaces/src/rpc/types.rs): a yoctoNEAR amount. -/
structure NearBalance where
  yocto : Balance
deriving DecidableEq, Repr

/-- `NearBalance::from_yoctonear`. -/
def NearBalance.from_yoctonear (n : Balance) : NearBalance := ⟨n⟩

/-- `AccountInfo` (src/workspaces/src/rpc/types.rs) as populated by
`display_account_info`. -/
structure AccountInfo where
  account_id : AccountId
  block_height : Nat
  block_hash : BlockHash
  balance : NearBalance
  stake : NearBalance
  used_storage_bytes : Nat
deriving DecidableEq, Repr

/-- Result of one RPC round trip, with the error classification the retry
policy distinguishes (spec 7: transient errors are retried, all others are
not). -/
inductive RpcResult (α : Type) where
  | ok (a : α)
  | transientErr (e : String)
  | fatalErr (e : String)
deriving DecidableEq, Repr

/-- The RPC channel for queries: a response per request and invocation
index (the index models the changing network state between attempts). -/
abbrev Channel := RpcQueryRequest → Nat → RpcResult RpcQueryResponse

/-- Terminal error of the retry client (spec 7). -/
inductive RetryError where
  | retryExhausted (last : String)
  | fatal (e : String)
deriving DecidableEq, Repr

/-- Modelled from the spec: the retry loop shared by `client::retry` and
`client::send_tx_and_retry` (src/workspaces/src/rpc/client.rs, not under
src/). Spec 4.2 and 7: re-invoke the supplied task per attempt; retry only
designated transient errors, up to a bounded attempt count; surface any
non-transient error immediately; after exhaustion return `RetryExhausted`
carrying the last underlying cause. Returns the number of attempts made
together with the final result; `i` is the index of the first attempt. -/
def runRetry {α : Type} (task : Nat → RpcResult α) (i : Nat) :
    Nat → Nat × Except RetryError α
  | 0 => (0, Except.error (RetryError.retryExhausted "no attempts allowed"))
  | 1 =>
    match task i with
    | RpcResult.ok a => (1, Except.ok a)
    | RpcResult.fatalErr e => (1, Except.error (RetryError.fatal e))
    | RpcResult.transientErr e => (1, Except.error (RetryError.retryExhausted e))
  | n + 2 =>
    match task i with
    | RpcResult.ok a => (1, Except.ok a)
    | RpcResult.fatalErr e => (1, Except.error (RetryError.fatal e))
    | RpcResult.transientErr _ =>
      ((runRetry task (i + 1) (n + 1)).1 + 1, (runRetry task (i + 1) (n + 1)).2)

/-- Modelled from the spec: `client::send_tx_and_retry`
(src/workspaces/src/rpc/client.rs, not under src/) — drives a build-and-submit
task through the bounded retry loop (spec 4.2). -/
def send_tx_and_retry (maxAttempts : Nat)
    (task : Nat → RpcResult FinalExecutionOutcomeView) :
    Nat × Except RetryError FinalExecutionOutcomeView :=
  runRetry task 0 maxAttempts

/-- Error message of the wildcard match arms in `display_account_info` and
`view` (api.rs lines 62 and 131). -/
def ERR_CALL_RESULT : String := "Error call result"

/-- `ERR_INVALID_VARIANT` (api.rs lines 23-24). -/
def ERR_INVALID_VARIANT : String :=
  "Incorrect variant retrieved while querying: maybe a bug in RPC code?"

/-- Request built by `display_account_info` (api.rs lines 51-58): ViewAccount
under `Finality::Final`. -/
def display_account_info_request (account_id : AccountId) : RpcQueryRequest :=
  { block_reference := Finality.final
    request := QueryRequest.viewAccount account_id }

/-- Decoding step of `display_account_info` (api.rs lines 60-72). -/
def display_account_info_decode (account_id : AccountId)
    (query_resp : RpcQueryResponse) : Except String AccountInfo :=
  match query_resp.kind with
  | QueryResponseKind.viewAccount account_view =>
    Except.ok
      { account_id
        block_height := query_resp.block_height
        block_hash := query_resp.block_hash
        balance := NearBalance.from_yoctonear account_view.amount
        stake := NearBalance.from_yoctonear account_view.locked
        used_storage_bytes := account_view.storage_usage }
  | _ => Except.error ERR_CALL_RESULT

/-- Embedding of `display_account_info` (api.rs lines 50-73): a single RPC
query — no retry wrapper — then the typed decode. Returns the number of
channel invocations made together with the result. -/
def display_account_info_run (ch : Channel) (account_id : AccountId) :
    Nat × Except String AccountInfo :=
  match ch (display_account_info_request account_id) 0 with
  | RpcResult.ok resp => (1, display_account_info_decode account_id resp)
  | RpcResult.transientErr e => (1, Except.error e)
  | RpcResult.fatalErr e => (1, Except.error e)

/-- Request built by `view` (api.rs lines 118-126): CallFunction under
`Finality::None` (the optimistic reference). -/
def view_request (contract_id : AccountId) (method_name : String)
    (args : List Nat) : RpcQueryRequest :=
  { block_reference := Finality.none
    request := QueryRequest.callFunction contract_id method_name args }

/-- Variant-matching step of `view` (api.rs lines 129-132). -/
def view_extract (query_resp : RpcQueryResponse) : Except String (List Nat) :=
  match query_resp.kind with
  | QueryResponseKind.callResult result => Except.ok result.result
  | _ => Except.error ERR_CALL_RESULT

/-- Embedding of `view` (api.rs lines 113-136), up to the returned byte
payload: a single RPC query — no retry wrapper — then the variant match. The
utf8/JSON decode applied to the ok payload afterwards is the external serde
collaborator (spec 1). Returns the number of channel invocations made
together with the result. -/
def view_run (ch : Channel) (contract_id : AccountId) (method_name : String)
    (args : List Nat) : Nat × Except String (List Nat) :=
  match ch (view_request contract_id method_name args) 0 with
  | RpcResult.ok resp => (1, view_extract resp)
  | RpcResult.transientErr e => (1, Except.error e)
  | RpcResult.fatalErr e => (1, Except.error e)

/-- Modelled from the spec: `tool::into_state_map`
(src/workspaces/src/rpc/tool.rs, not under src/) — spec 4.4: view-state yields
a mapping of key to value, embedded here as the association list of key/value
byte pairs. -/
def into_state_map (values : List (List Nat × List Nat)) :
    Except String (List (List Nat × List Nat)) :=
  Except.ok values

/-- Request built by `view_state` (api.rs lines 144-150): ViewState under
`Finality::None`, with an absent key prefix defaulting to the empty prefix
(full state dump). -/
def view_state_request (contract_id : AccountId) (pfx : Option (List Nat)) :
    RpcQueryRequest :=
  { block_reference := Finality.none
    request := QueryRequest.viewState contract_id (pfx.getD []) }

/-- Variant-matching step of `view_state` (api.rs lines 153-156). -/
def view_state_decode (query_resp : RpcQueryResponse) :
    Except String (List (List Nat × List Nat)) :=
  match query_resp.kind with
  | QueryResponseKind.viewState state => into_state_map state.values
  | _ => Except.error ERR_INVALID_VARIANT

/-- One attempt of the closure `view_state` passes to `client::retry`
(api.rs lines 142-157): one RPC query plus the variant match. A
variant-mismatch or state-map failure is a protocol fault, not a transient
transport error, so it is classified non-transient (spec 7). -/
def view_state_attempt (ch : Channel) (contract_id : AccountId)
    (pfx : Option (List Nat)) (i : Nat) :
    RpcResult (List (List Nat × List Nat)) :=
  match ch (view_state_request contract_id pfx) i with
  | RpcResult.ok resp =>
    match view_state_decode resp with
    | Except.ok m => RpcResult.ok m
    | Except.error e => RpcResult.fatalErr e
  | RpcResult.transientErr e => RpcResult.transientErr e
  | RpcResult.fatalErr e => RpcResult.fatalErr e

/-- Embedding of `view_state` (api.rs lines 138-159): unlike `view` and
`display_account_info`, the whole query closure is wrapped in
`client::retry`. Returns the number of channel invocations made together with
the result. -/
def view_state_run (ch : Channel) (maxAttempts : Nat) (contract_id : AccountId)
    (pfx : Option (List Nat)) :
    Nat × Except RetryError (List (List Nat × List Nat)) :=
  runRetry (view_state_attempt ch contract_id pfx) 0 maxAttempts

/-- Claim C3 as stated: every read query operation sends exactly one request
per invocation, for every channel behaviour. -/
def readQueriesSingleRequest : Prop :=
  ∀ (ch : Channel) (maxAttempts : Nat) (account_id contract_id : AccountId)
    (method_name : String) (args : List Nat) (pfx : Option (List Nat)),
    1 ≤ maxAttempts →
    (view_run ch contract_id method_name args).1 = 1 ∧
    (display_account_info_run ch account_id).1 = 1 ∧
    (view_state_run ch maxAttempts contract_id pfx).1 = 1

/-- A channel that fails transiently on the first invocation and then answers
every query with an empty ViewState payload. -/
def flakyChannel : Channel := fun _ i =>
  if i = 0 then RpcResult.transientErr "timeout"
  else
    RpcResult.ok
      { kind := QueryResponseKind.viewState { values := [] }
        block_height := 0
        block_hash := 0 }

/-- A channel that always answers with an empty ViewState payload. -/
def okChannel : Channel := fun _ _ =>
  RpcResult.ok
    { kind := QueryResponseKind.viewState { values := [] }
      block_height := 0
      block_hash := 0 }

/-- Modelled from the spec: predicate versions of near_jsonrpc response
variants, used to state that a decode succeeds exactly on the matching
variant. -/
def QueryResponseKind.isViewAccount : QueryResponseKind → Bool
  | QueryResponseKind.viewAccount _ => true
  | _ => false

/-- Whether the response payload is a CallResult. -/
def QueryResponseKind.isCallResult : QueryResponseKind → Bool
  | QueryResponseKind.callResult _ => true
  | _ => false

/-- Whether the response payload is a ViewState result. -/
def QueryResponseKind.isViewState : QueryResponseKind → Bool
  | QueryResponseKind.viewState _ => true
  | _ => false

/-- Modelled from the spec: the Nonce and Freshness Resolver's query
(`tool::access_key`, src/workspaces/src/rpc/tool.rs, not under src/) —
spec 4.1: the account's access key is fetched under the final block
reference. -/
def access_key_request (account_id : AccountId) (public_key : PublicKey) :
    RpcQueryRequest :=
  { block_reference := Finality.final
    request := QueryRequest.viewAccessKey account_id public_key }

/-- near_crypto `InMemorySigner`: a keypair plus the account it belongs to. -/
structure InMemorySigner where
  account_id : AccountId
  public_key : PublicKey
  secret_key : Nat
deriving DecidableEq, Repr

/-- The action carried by the transactions this layer builds. -/
inductive TxAction where
  | transfer (deposit : Balance)
  | createAccount (deposit : Balance) (new_key : PublicKey)
  | deleteAccount (beneficiary_id : AccountId)
deriving DecidableEq, Repr

/-- near_primitives `SignedTransaction`, as the record of what the opaque
sign-and-assemble constructors were given; signing itself is the external
cryptographic primitive (spec 6). -/
structure SignedTransaction where
  nonce : Nat
  signer_id : AccountId
  receiver_id : AccountId
  action : TxAction
  block_hash : BlockHash
  signed_with : PublicKey
deriving DecidableEq, Repr

/-- near_primitives `SignedTransaction::send_money`. -/
def SignedTransaction.send_money (nonce : Nat) (signer_id receiver_id : AccountId)
    (signer : InMemorySigner) (deposit : Balance) (block_hash : BlockHash) :
    SignedTransaction :=
  { nonce
    signer_id
    receiver_id
    action := TxAction.transfer deposit
    block_hash
    signed_with := signer.public_key }

/-- near_primitives `SignedTransaction::create_account`. -/
def SignedTransaction.create_account (nonce : Nat)
    (originator_id new_account_id : AccountId) (amount : Balance)
    (public_key : PublicKey) (signer : InMemorySigner) (block_hash : BlockHash) :
    SignedTransaction :=
  { nonce
    signer_id := originator_id
    receiver_id := new_account_id
    action := TxAction.createAccount amount public_key
    block_hash
    signed_with := signer.public_key }

/-- near_primitives `SignedTransaction::delete_account`. -/
def SignedTransaction.delete_account (nonce : Nat)
    (signer_id receiver_id beneficiary_id : AccountId) (signer : InMemorySigner)
    (block_hash : BlockHash) : SignedTransaction :=
  { nonce
    signer_id
    receiver_id
    action := TxAction.deleteAccount beneficiary_id
    block_hash
    signed_with := signer.public_key }

/-- Modelled from the spec: the per-attempt result of the Nonce and Freshness
Resolver `tool::access_key` (src/workspaces/src/rpc/tool.rs, not under src/) —
spec 4.1: the access key's current on-chain nonce together with a recent
block hash. It is a function of the attempt index because the builder closure
re-invokes the resolver on every attempt; attempt `i` observes the network
state at that moment. -/
abbrev AccessKeyFetch := Nat → AccessKeyView × BlockHash

/-- `NEAR_BASE` (api.rs line 22): one NEAR in yoctoNEAR. -/
def NEAR_BASE : Balance := 1000000000000000000000000

/-- `DEFAULT_CALL_FN_GAS` (api.rs line 26). -/
def DEFAULT_CALL_FN_GAS : Gas := 10000000000000

/-- The builder closure of `transfer_near` (api.rs lines 81-93), at attempt
`i`: re-fetch the access key and block hash, then sign a send-money
transaction with the freshly fetched nonce + 1 (u64 arithmetic). -/
def transfer_near_builder (fetch : AccessKeyFetch) (signer : InMemorySigner)
    (signer_id receiver_id : AccountId) (amount_yocto : Balance) (i : Nat) :
    SignedTransaction :=
  let access_key := (fetch i).1
  let block_hash := (fetch i).2
  SignedTransaction.send_money ((access_key.nonce + 1) % U64_MOD) signer_id
    receiver_id signer amount_yocto block_hash

/-- The builder closure of `create_account` (api.rs lines 195-208), at attempt
`i`: re-fetch the access key and block hash, then sign a create-account
transaction with the freshly fetched nonce + 1 and deposit
`deposit.unwrap_or(NEAR_BASE)`. -/
def create_account_builder (fetch : AccessKeyFetch) (signer : InMemorySigner)
    (signer_id new_account_id : AccountId) (new_account_pk : PublicKey)
    (deposit : Option Balance) (i : Nat) : SignedTransaction :=
  let access_key := (fetch i).1
  let block_hash := (fetch i).2
  SignedTransaction.create_account ((access_key.nonce + 1) % U64_MOD) signer_id
    new_account_id (deposit.getD NEAR_BASE) new_account_pk signer block_hash

/-- The builder closure of `delete_account` (api.rs lines 230-242), at attempt
`i`: re-fetch the access key and block hash, then sign a delete-account
transaction (signer and receiver are both the deleted account) with the
freshly fetched nonce + 1. -/
def delete_account_builder (fetch : AccessKeyFetch) (account_id : AccountId)
    (signer : InMemorySigner) (beneficiary_id : AccountId) (i : Nat) :
    SignedTransaction :=
  let access_key := (fetch i).1
  let block_hash := (fetch i).2
  SignedTransaction.delete_account ((access_key.nonce + 1) % U64_MOD) account_id
    account_id beneficiary_id signer block_hash

/-- Embedding of `transfer_near` (api.rs lines 75-96): drive the builder
through `send_tx_and_retry`, then normalize the raw outcome. `submit` models
one transaction submission round trip at a given attempt index. -/
def transfer_near_run (fetch : AccessKeyFetch)
    (submit : SignedTransaction → Nat → RpcResult FinalExecutionOutcomeView)
    (maxAttempts : Nat) (signer : InMemorySigner)
    (signer_id receiver_id : AccountId) (amount_yocto : Balance) :
    Nat × Except RetryError CallExecutionResult :=
  let r := send_tx_and_retry maxAttempts
    (fun i => submit (transfer_near_builder fetch signer signer_id receiver_id amount_yocto i) i)
  (r.1, r.2.map callExecutionResult_from)

/-- What the opaque submission path `Client::_call`
(src/workspaces/src/rpc/client.rs, not under src/) receives. Modelled from
the spec: the retry client is handed the signer together with the
operation-specific fields — receiver, method, args, gas, deposit
(spec 4.2). -/
structure CallSubmission where
  signer : InMemorySigner
  contract_id : AccountId
  method_name : String
  args : List Nat
  gas : Option Gas
  deposit : Option Balance
deriving DecidableEq, Repr

/-- Modelled from the spec: the credential store (spec 6) —
`read(account_id) -> signer`, keyed by account id on local storage; this is
the composition `InMemorySigner::from_file(tool::credentials_filepath(id))`
used by `call`. -/
abbrev CredentialStore := AccountId → InMemorySigner

/-- Embedding of `call` (api.rs lines 98-111): the `signer` parameter is
immediately shadowed by the signer read from the on-disk credentials file for
`signer_id`, and the submission passes gas `None` (the literal `None`
argument of `_call`). -/
def call (store : CredentialStore) (signer : InMemorySigner)
    (signer_id contract_id : AccountId) (method_name : String)
    (args : List Nat) (deposit : Option Balance) : CallSubmission :=
  let signer := store signer_id
  { signer
    contract_id
    method_name
    args
    gas := Option.none
    deposit }

/-- Backend variants (spec 2): Sandbox, Testnet, Mainnet, MainnetArchival. -/
inductive RuntimeKind where
  | sandbox
  | testnet
  | mainnet
  | mainnetArchival
deriving DecidableEq, Repr

/-- Modelled from the spec: `crate::runtime::assert_within`
(src/workspaces/src/runtime, not under src/) — spec 4.5 and 7: the capability
gate run before any network activity; on a backend outside the allowed set it
fails fast with a `CapabilityError` surfaced as an ordinary typed result. -/
def assert_within (rt : RuntimeKind) (allowed : List RuntimeKind) :
    Except String Unit :=
  if rt ∈ allowed then Except.ok ()
  else Except.error "CapabilityError: operation unsupported on the active backend"

/-- near_primitives `StateRecord::Data` as built by `patch_state`
(api.rs lines 173-177). -/
structure StateRecordData where
  account_id : AccountId
  data_key : String
  value : List Nat
deriving DecidableEq, Repr

/-- near_jsonrpc `RpcSandboxPatchStateRequest`. -/
structure RpcSandboxPatchStateRequest where
  records : List StateRecordData
deriving DecidableEq, Repr

/-- near_jsonrpc `RpcSandboxPatchStateResponse` (an empty record). -/
structure RpcSandboxPatchStateResponse where
deriving DecidableEq, Repr

/-- The RPC channel for sandbox patch-state requests. -/
abbrev PatchChannel :=
  RpcSandboxPatchStateRequest → RpcResult RpcSandboxPatchStateResponse

/-- Embedding of `patch_state` (api.rs lines 161-186): the sandbox capability
gate runs first; only when it passes is the record built and the patch
request sent. Borsh serialization of the value is the external serialization
primitive (spec 6), so the value is taken as bytes. Returns the number of
channel invocations made together with the result. -/
def patch_state (rt : RuntimeKind) (ch : PatchChannel) (account_id : AccountId)
    (key : String) (value : List Nat) :
    Nat × Except String RpcSandboxPatchStateResponse :=
  match assert_within rt [RuntimeKind.sandbox] with
  | Except.error e => (0, Except.error e)
  | Except.ok _ =>
    let state : StateRecordData := { account_id, data_key := key, value }
    let records := [state]
    match ch { records } with
    | RpcResult.ok resp => (1, Except.ok resp)
    | RpcResult.transientErr e => (1, Except.error ("Failed to patch state: " ++ e))
    | RpcResult.fatalErr e => (1, Except.error ("Failed to patch state: " ++ e))

/-- A patch channel that always succeeds. -/
def nullPatchChannel : PatchChannel := fun _ =>
  RpcResult.ok RpcSandboxPatchStateResponse.mk

/-- Modelled from the spec: the runtime context's create-top-level-account
strategy (src/workspaces/src/runtime, not under src/) — spec 4.5: on Sandbox
a root-signed create-account transaction yields the full execution outcome,
normalized; on the helper-backed networks an external account-creation helper
is used which "does not provide the ExecutionOutcomeView" (doc comment at
api.rs lines 213-215), so no execution details are exposed. The raw outcome
the sandbox path would observe is a parameter. -/
def runtime_create_top_level_account (rt : RuntimeKind)
    (sandbox_outcome : FinalExecutionOutcomeView) : Option CallExecutionResult :=
  match rt with
  | RuntimeKind.sandbox => Option.some (callExecutionResult_from sandbox_outcome)
  | _ => Option.none

/-- Embedding of `create_top_level_account` (api.rs lines 216-223): delegates
to the current runtime context's strategy. -/
def create_top_level_account (rt : RuntimeKind)
    (sandbox_outcome : FinalExecutionOutcomeView) : Option CallExecutionResult :=
  runtime_create_top_level_account rt sandbox_outcome

/-- A concrete access-key fetch: nonce 5, block hash 77, at every attempt. -/
def constFetch : AccessKeyFetch := fun _ => (⟨5⟩, 77)

/-- A concrete signer for witnesses. -/
def devSigner : InMemorySigner :=
  { account_id := "alice", public_key := 1, secret_key := 2 }

/-- A concrete raw outcome with one receipt, for witnesses. -/
def sampleOutcome : FinalExecutionOutcomeView :=
  { status := FinalExecutionStatus.successValue []
    transaction_outcome := ⟨⟨3⟩⟩
    receipts_outcome := [⟨⟨4⟩⟩] }

theorem runRetry_count_le {α : Type} (task : Nat → RpcResult α) :
    ∀ (n i : Nat), (runRetry task i n).1 ≤ n := by
  intro n
  induction n using Nat.strong_induction_on with
  | _ n ih =>
    intro i
    rcases n with _ | _ | m
    · simp [runRetry]
    · cases h : task i <;> simp [runRetry, h]
    · cases h : task i with
      | ok a => simp [runRetry, h]
      | fatalErr e => simp [runRetry, h]
      | transientErr e =>
        have hrec := ih (m + 1) (by omega) (i + 1)
        simp only [runRetry, h]
        omega

theorem runRetry_all_transient {α : Type} (task : Nat → RpcResult α)
    (errs : Nat → String) (h : ∀ j, task j = RpcResult.transientErr (errs j)) :
    ∀ (n i : Nat), 1 ≤ n →
      runRetry task i n =
        (n, Except.error (RetryError.retryExhausted (errs (i + n - 1)))) := by
  intro n
  induction n using Nat.strong_induction_on with
  | _ n ih =>
    intro i hn
    rcases n with _ | _ | m
    · omega
    · simp [runRetry, h i]
    · have hrec := ih (m + 1) (by omega) (i + 1) (by omega)
      rw [show i + 1 + (m + 1) - 1 = i + (m + 2) - 1 by omega] at hrec
      simp only [runRetry, h i, hrec]

theorem runRetry_fatal_first {α : Type} (task : Nat → RpcResult α) (i : Nat)
    (e : String) (h : task i = RpcResult.fatalErr e) :
    ∀ n, 1 ≤ n → runRetry task i n = (1, Except.error (RetryError.fatal e)) := by
  intro n hn
  rcases n with _ | _ | m
  · omega
  · simp [runRetry, h]
  · simp [runRetry, h]

theorem runRetry_not_transient_first {α : Type} (task : Nat → RpcResult α)
    (i : Nat) (h : ∀ e, task i ≠ RpcResult.transientErr e) :
    ∀ n, 1 ≤ n → (runRetry task i n).1 = 1 := by
  intro n hn
  rcases n with _ | _ | m
  · omega
  · cases ht : task i <;> simp [runRetry, ht]
  · cases ht : task i with
    | ok a => simp [runRetry, ht]
    | transientErr e => exact absurd ht (h e)
    | fatalErr e => simp [runRetry, ht]

theorem u64_sum_foldl (l : List Nat) (c : Nat) :
    l.foldl (fun a b => (a + b) % U64_MOD) c % U64_MOD = (c + l.sum) % U64_MOD := by
  induction l generalizing c with
  | nil => simp
  | cons b bs ih =>
    simp only [List.foldl_cons, List.sum_cons]
    rw [ih, Nat.mod_add_mod, Nat.add_assoc]

/-- Claim C1: the outcome normalizer is a pure function that copies the
top-level status unchanged and sets `total_gas_burnt` to the transaction's
own outcome `gas_burnt` plus the sum of `gas_burnt` over all receipt outcomes
(u64 arithmetic), for every input outcome — in particular for outcomes with
zero, one or many receipts. -/
theorem callExecutionResult_from_spec (t : FinalExecutionOutcomeView) :
    (callExecutionResult_from t).status = t.status ∧
    (callExecutionResult_from t).total_gas_burnt =
      (t.transaction_outcome.outcome.gas_burnt +
        (t.receipts_outcome.map (fun r => r.outcome.gas_burnt)).sum) % U64_MOD := by
  refine ⟨rfl, ?_⟩
  show (t.transaction_outcome.outcome.gas_burnt +
      u64_sum (t.receipts_outcome.map (fun r => r.outcome.gas_burnt))) % U64_MOD = _
  rw [Nat.add_mod, u64_sum]
  rw [u64_sum_foldl, Nat.zero_add, ← Nat.add_mod]

/-- Claim C2: if the build-and-submit task fails with a transient error on
every attempt, the retry client invokes it exactly `maxAttempts` times and
then returns `RetryExhausted` carrying the last underlying cause, never
retrying indefinitely; and a non-transient error on the first attempt is
surfaced immediately, after exactly one attempt. -/
theorem send_tx_and_retry_bound :
    (∀ (maxAttempts : Nat) (errs : Nat → String), 1 ≤ maxAttempts →
      send_tx_and_retry maxAttempts (fun i => RpcResult.transientErr (errs i)) =
        (maxAttempts,
          Except.error (RetryError.retryExhausted (errs (maxAttempts - 1))))) ∧
    (∀ (maxAttempts : Nat) (task : Nat → RpcResult FinalExecutionOutcomeView)
      (e : String), 1 ≤ maxAttempts → task 0 = RpcResult.fatalErr e →
      send_tx_and_retry maxAttempts task =
        (1, Except.error (RetryError.fatal e))) := by
  constructor
  · intro maxAttempts errs hm
    have h := @runRetry_all_transient FinalExecutionOutcomeView
      (fun i => RpcResult.transientErr (errs i)) errs (fun j => rfl)
      maxAttempts 0 hm
    simpa [send_tx_and_retry] using h
  · intro maxAttempts task e hm h
    exact runRetry_fatal_first task 0 e h maxAttempts hm

theorem send_tx_and_retry_bound_witness :
    send_tx_and_retry 3 (fun _ => RpcResult.transientErr "nonce race") =
      (3, Except.error (RetryError.retryExhausted "nonce race")) ∧
    send_tx_and_retry 3 (fun _ => RpcResult.fatalErr "unknown key") =
      (1, Except.error (RetryError.fatal "unknown key")) :=
  ⟨send_tx_and_retry_bound.1 3 (fun _ => "nonce race") (by decide),
   send_tx_and_retry_bound.2 3 (fun _ => RpcResult.fatalErr "unknown key")
     "unknown key" (by decide) rfl⟩

/-- Claim C3 is refuted by the code: `view_state` wraps its query closure in
`client::retry` (api.rs line 142), so on a channel whose first response is a
transient failure it sends a second request, while the claim demands exactly
one request per invocation for every read query. -/
theorem view_state_retries_counterexample : ¬ readQueriesSingleRequest := by
  intro h
  have h2 := (h flakyChannel 3 "alice" "contract" "m" [] Option.none
    (by decide)).2.2
  exact absurd h2 (by decide)

/-- Claim C3 (amended): `view` and the account-info query send exactly one
request per invocation and surface any error of that single attempt; but
`view_state` is wrapped in the retry helper: its request count is only
bounded by the attempt maximum, and equals one exactly when its first
attempt is not a transient failure. -/
theorem read_query_request_counts :
    (∀ (ch : Channel) (contract_id : AccountId) (method_name : String)
      (args : List Nat), (view_run ch contract_id method_name args).1 = 1) ∧
    (∀ (ch : Channel) (account_id : AccountId),
      (display_account_info_run ch account_id).1 = 1) ∧
    (∀ (ch : Channel) (maxAttempts : Nat) (contract_id : AccountId)
      (pfx : Option (List Nat)),
      (view_state_run ch maxAttempts contract_id pfx).1 ≤ maxAttempts) ∧
    (∀ (ch : Channel) (maxAttempts : Nat) (contract_id : AccountId)
      (pfx : Option (List Nat)),
      1 ≤ maxAttempts →
      (∀ e, view_state_attempt ch contract_id pfx 0 ≠
        RpcResult.transientErr e) →
      (view_state_run ch maxAttempts contract_id pfx).1 = 1) := by
  refine ⟨?_, ?_, ?_, ?_⟩
  · intro ch contract_id method_name args
    cases h : ch (view_request contract_id method_name args) 0 <;>
      simp [view_run, h]
  · intro ch account_id
    cases h : ch (display_account_info_request account_id) 0 <;>
      simp [display_account_info_run, h]
  · intro ch maxAttempts contract_id pfx
    exact runRetry_count_le (view_state_attempt ch contract_id pfx)
      maxAttempts 0
  · intro ch maxAttempts contract_id pfx hm h
    exact runRetry_not_transient_first (view_state_attempt ch contract_id pfx)
      0 h maxAttempts hm

theorem read_query_request_counts_witness :
    (view_run okChannel "contract" "m" []).1 = 1 ∧
    (display_account_info_run okChannel "alice").1 = 1 ∧
    (view_state_run okChannel 3 "contract" Option.none).1 ≤ 3 ∧
    (view_state_run okChannel 3 "contract" Option.none).1 = 1 :=
  ⟨read_query_request_counts.1 okChannel "contract" "m" [],
   read_query_request_counts.2.1 okChannel "alice",
   read_query_request_counts.2.2.1 okChannel 3 "contract" Option.none,
   read_query_request_counts.2.2.2 okChannel 3 "contract" Option.none
     (by decide)
     (by
       intro e
       simp [view_state_attempt, okChannel, view_state_decode, into_state_map])⟩

/-- Claim C4: `patch_state` on a non-Sandbox backend fails fast with a
`CapabilityError` before any network call — zero RPC invocations — surfaced
as an ordinary typed result. -/
theorem patch_state_capability_gate (rt : RuntimeKind) (ch : PatchChannel)
    (account_id : AccountId) (key : String) (value : List Nat)
    (h : rt ≠ RuntimeKind.sandbox) :
    (patch_state rt ch account_id key value).1 = 0 ∧
    (patch_state rt ch account_id key value).2 =
      Except.error "CapabilityError: operation unsupported on the active backend" := by
  cases rt
  · exact absurd rfl h
  · exact ⟨rfl, rfl⟩
  · exact ⟨rfl, rfl⟩
  · exact ⟨rfl, rfl⟩

theorem patch_state_capability_gate_witness :
    (patch_state RuntimeKind.testnet nullPatchChannel "alice" "k" []).1 = 0 ∧
    (patch_state RuntimeKind.testnet nullPatchChannel "alice" "k" []).2 =
      Except.error "CapabilityError: operation unsupported on the active backend" :=
  patch_state_capability_gate RuntimeKind.testnet nullPatchChannel "alice" "k" []
    (by decide)

/-- Claim C5: on every attempt, each mutating operation's builder uses the
access-key nonce and block hash freshly fetched at that very attempt, and
signs with the fetched nonce + 1 (u64 arithmetic) — strictly greater than the
fetched confirmed nonce whenever the increment does not wrap; nothing is
cached or locally incremented across attempts. -/
theorem mutating_builders_fresh_nonce (fetch : AccessKeyFetch)
    (signer : InMemorySigner)
    (signer_id receiver_id new_account_id account_id beneficiary_id : AccountId)
    (new_account_pk : PublicKey) (amount : Balance) (deposit : Option Balance)
    (i : Nat) :
    ((transfer_near_builder fetch signer signer_id receiver_id amount i).nonce =
        ((fetch i).1.nonce + 1) % U64_MOD ∧
      (transfer_near_builder fetch signer signer_id receiver_id amount i).block_hash =
        (fetch i).2) ∧
    ((create_account_builder fetch signer signer_id new_account_id new_account_pk
        deposit i).nonce = ((fetch i).1.nonce + 1) % U64_MOD ∧
      (create_account_builder fetch signer signer_id new_account_id new_account_pk
        deposit i).block_hash = (fetch i).2) ∧
    ((delete_account_builder fetch account_id signer beneficiary_id i).nonce =
        ((fetch i).1.nonce + 1) % U64_MOD ∧
      (delete_account_builder fetch account_id signer beneficiary_id i).block_hash =
        (fetch i).2) ∧
    ((fetch i).1.nonce + 1 < U64_MOD →
      (fetch i).1.nonce <
        (transfer_near_builder fetch signer signer_id receiver_id amount i).nonce ∧
      (fetch i).1.nonce <
        (create_account_builder fetch signer signer_id new_account_id
          new_account_pk deposit i).nonce ∧
      (fetch i).1.nonce <
        (delete_account_builder fetch account_id signer beneficiary_id i).nonce) := by
  refine ⟨⟨rfl, rfl⟩, ⟨rfl, rfl⟩, ⟨rfl, rfl⟩, ?_⟩
  intro h
  have hmod : ((fetch i).1.nonce + 1) % U64_MOD = (fetch i).1.nonce + 1 :=
    Nat.mod_eq_of_lt h
  refine ⟨?_, ?_, ?_⟩ <;>
    simp only [transfer_near_builder, create_account_builder,
      delete_account_builder, SignedTransaction.send_money,
      SignedTransaction.create_account, SignedTransaction.delete_account,
      hmod] <;>
    omega

theorem mutating_builders_fresh_nonce_witness :
    (constFetch 0).1.nonce <
      (transfer_near_builder constFetch devSigner "alice" "bob" 10 0).nonce :=
  ((mutating_builders_fresh_nonce constFetch devSigner "alice" "bob" "carol"
      "dave" "erin" 9 10 Option.none 0).2.2.2 (by decide)).1

/-- Claim C6: `create_top_level_account` yields `Some` full execution result
on the Sandbox backend and `None` on the helper-backed Testnet/Mainnet
backends, where the helper does not expose execution details. -/
theorem create_top_level_account_option (rt : RuntimeKind)
    (o : FinalExecutionOutcomeView) (h : rt ≠ RuntimeKind.sandbox) :
    create_top_level_account RuntimeKind.sandbox o =
      Option.some (callExecutionResult_from o) ∧
    create_top_level_account rt o = Option.none := by
  refine ⟨rfl, ?_⟩
  cases rt
  · exact absurd rfl h
  · rfl
  · rfl
  · rfl

theorem create_top_level_account_option_witness :
    create_top_level_account RuntimeKind.sandbox sampleOutcome =
      Option.some (callExecutionResult_from sampleOutcome) ∧
    create_top_level_account RuntimeKind.testnet sampleOutcome = Option.none :=
  create_top_level_account_option RuntimeKind.testnet sampleOutcome (by decide)

/-- Claim C7: each query decode succeeds exactly when the response payload
variant matches the query kind; a payload shaped for a different kind is
rejected with an error, never silently coerced into a success value. -/
theorem query_decode_variant_check (account_id : AccountId)
    (resp : RpcQueryResponse) :
    (display_account_info_decode account_id resp).isOk = resp.kind.isViewAccount ∧
    (view_extract resp).isOk = resp.kind.isCallResult ∧
    (view_state_decode resp).isOk = resp.kind.isViewState := by
  refine ⟨?_, ?_, ?_⟩ <;> cases h : resp.kind <;>
    simp [display_account_info_decode, view_extract, view_state_decode,
      into_state_map, QueryResponseKind.isViewAccount,
      QueryResponseKind.isCallResult, QueryResponseKind.isViewState, h,
      Except.isOk, Except.toBool]

/-- Claim C8: `call` does not depend on the signer argument passed to it —
the supplied signer is shadowed and the signing key is read from the on-disk
credentials store keyed by `signer_id` — so any two signer values with the
same `signer_id` and otherwise equal arguments produce the same submission. -/
theorem call_ignores_signer_argument (store : CredentialStore)
    (signer₁ signer₂ : InMemorySigner) (signer_id contract_id : AccountId)
    (method_name : String) (args : List Nat) (deposit : Option Balance) :
    call store signer₁ signer_id contract_id method_name args deposit =
      call store signer₂ signer_id contract_id method_name args deposit ∧
    (call store signer₁ signer_id contract_id method_name args deposit).signer =
      store signer_id :=
  ⟨rfl, rfl⟩

/-- Claim C9: the create-account transaction carries a deposit of exactly
`NEAR_BASE` = 10^24 yoctoNEAR when `deposit` is `None`, and exactly `d` when
`deposit` is `Some d`. -/
theorem create_account_deposit (fetch : AccessKeyFetch)
    (signer : InMemorySigner) (signer_id new_account_id : AccountId)
    (pk : PublicKey) (d : Balance) (i : Nat) :
    NEAR_BASE = 1000000000000000000000000 ∧
    (create_account_builder fetch signer signer_id new_account_id pk
      Option.none i).action = TxAction.createAccount NEAR_BASE pk ∧
    (create_account_builder fetch signer signer_id new_account_id pk
      (Option.some d) i).action = TxAction.createAccount d pk :=
  ⟨rfl, rfl, rfl⟩

/-- Claim C10: the contract view-function and view-state queries are issued
under the optimistic block reference (`Finality::None`), while the
account-info view and the access-key/nonce resolution used for transactions
are issued under the finalized reference (`Finality::Final`). -/
theorem query_block_reference (contract_id account_id : AccountId)
    (method_name : String) (args : List Nat) (pfx : Option (List Nat))
    (pk : PublicKey) :
    (view_request contract_id method_name args).block_reference =
      Finality.none ∧
    (view_state_request contract_id pfx).block_reference =
      Finality.none ∧
    (display_account_info_request account_id).block_reference =
      Finality.final ∧
    (access_key_request account_id pk).block_reference = Finality.final :=
  ⟨rfl, rfl, rfl, rfl⟩

end Workspaces
